import Mathlib

/-!
# Verification of the github-repo-analyzer specification

Shallow embedding of the repository's dashboard (`src/app.py`) and
command-line tool (`src/cli.py`), together with the repository-manager
operations they call.  The manager class itself (`GithubRepoManager`,
imported by both source files) is not among the source files, so its
operations are modelled from the specification's description of them;
each such definition carries a doc comment starting
`Modelled from the spec:`.  Everything taken from `src/app.py` or
`src/cli.py` follows the Python source line by line.  Presentational
success strings (banner text, URLs) are abstracted; error messages and
control flow are kept verbatim.
-/

namespace RepoAnalyzer

/-! ## Data model -/

/-- A repository record, after the spec's data model: name, owner,
visibility (public/private), fork flag, archived flag, star count, fork
count, primary language, creation/update timestamps, admin-permission
flag.  Timestamps are abstracted as naturals (comparison is all the code
uses). -/
structure Repo where
  name : String
  owner : String
  isPrivate : Bool
  fork : Bool
  archived : Bool
  stars : Nat
  forks : Nat
  language : String
  created_at : Nat
  updated_at : Nat
  permissions_admin : Bool
deriving DecidableEq, Repr

/-- A commit record, after the spec's data model and the dicts built in
`src/app.py` (`get_all_commits`, the Activity view): repository name,
message, author name, timestamp, link. -/
structure CommitRecord where
  repo : String
  message : String
  date : Nat
  author : String
  url : String
deriving DecidableEq, Repr

/-- The stats summary returned by `get_repo_stats`: the six counts the
dashboard reads at `src/app.py` lines 219-227 under the keys
"Total Repositories", "Owned by <user>", "Public", "Private", "Forked"
and "Archived". -/
structure RepoStats where
  total : Nat
  owned : Nat
  publicCount : Nat
  privateCount : Nat
  forked : Nat
  archivedCount : Nat
deriving DecidableEq, Repr

/-- Python truthiness of an optional string: `None` and the empty
string are falsy (`if not token`, `if not args.name`, `if selected_repo`
in the sources). -/
def py_truthy : Option String → Bool
  | none => false
  | some s => !(s == "")

/-! ## Manager operations (spec-modelled) -/

/-- One step of the stats computation: bump each counter according to
the flags of one record. -/
def statsStep (username : String) (s : RepoStats) (r : Repo) : RepoStats :=
  { total := s.total + 1
    owned := s.owned + (if r.owner == username then 1 else 0)
    publicCount := s.publicCount + (if r.isPrivate then 0 else 1)
    privateCount := s.privateCount + (if r.isPrivate then 1 else 0)
    forked := s.forked + (if r.fork then 1 else 0)
    archivedCount := s.archivedCount + (if r.archived then 1 else 0) }

/-- Modelled from the spec: `GithubRepoManager.get_repo_stats` is not
among the source files; the spec describes it as "counts derived by
filtering the repository record set (total, owned, public, private,
forked, archived)".  The model iterates once over the record set,
incrementing one counter per category. -/
def get_repo_stats (username : String) (repos : List Repo) : RepoStats :=
  repos.foldl (statsStep username) ⟨0, 0, 0, 0, 0, 0⟩

/-- The ordering used for "recently active" repositories: `a` comes
before `b` when `a` was updated at least as recently. -/
def updated_ge (a b : Repo) : Prop := b.updated_at ≤ a.updated_at

instance : DecidableRel updated_ge := fun a b => Nat.decLe b.updated_at a.updated_at

instance : IsTotal Repo updated_ge := ⟨fun a b => Nat.le_total b.updated_at a.updated_at⟩

instance : IsTrans Repo updated_ge := ⟨fun _ _ _ h1 h2 => Nat.le_trans h2 h1⟩

/-- Modelled from the spec: `GithubRepoManager.get_recent_repos` is not
among the source files; the spec describes it as "fetch recent
repositories ordered by update time", and the Activity view
(`src/app.py` lines 244-252) passes the requested count and renders the
result most recently updated first.  The model sorts the accessible
record set by update time, most recent first, and takes the requested
count. -/
def get_recent_repos (repos : List Repo) (n : Nat) : List Repo :=
  (List.insertionSort updated_ge repos).take n

/-! ## Activity view commit split (`src/app.py` lines 278-298) -/

/-- The author test used by the Activity view (`src/app.py` line 284):
a commit is attributed to the authenticated user when its author name
equals the user's login or the user's full name
(`df_commits['author'].isin([user_login, user_name])`). -/
def is_user_author (user_login user_name : String) (c : CommitRecord) : Bool :=
  c.author == user_login || c.author == user_name

/-- The commits attributed to the authenticated user
(`owned_repos` at `src/app.py` line 284). -/
def owned_commits (user_login user_name : String)
    (df : List CommitRecord) : List CommitRecord :=
  df.filter (is_user_author user_login user_name)

/-- The commits attributed to other authors
(`other_repos` at `src/app.py` line 291, the complementary filter). -/
def other_commits (user_login user_name : String)
    (df : List CommitRecord) : List CommitRecord :=
  df.filter (fun c => !is_user_author user_login user_name c)

/-! ## Remote API model -/

/-- An error propagated from the remote API (a `GithubException`). -/
inductive ApiError where
  | insufficientPermission
  | notFound
  | rateLimit
  | otherError (msg : String)
deriving DecidableEq, Repr

/-- Rendering of a propagated API error, `str(e)` in the sources. -/
def apiErrorStr : ApiError → String
  | .insufficientPermission => "403 insufficient permission"
  | .notFound => "404 not found"
  | .rateLimit => "403 rate limit exceeded"
  | .otherError msg => msg

/-- A single remote API call, as issued by the manager operations. -/
inductive RemoteOp where
  | fetchRepos
  | fetchStarred
  | fetchCommits (repo : String)
  | createRepo (name : String) (description : Option String) (isPrivate : Bool)
      (auto_init : Bool) (gitignore_template : Option String)
      (license_template : Option String)
  | deleteRepo (name : String)
deriving DecidableEq, Repr

/-- Remote calls that modify remote repository state. -/
def RemoteOp.isMutation : RemoteOp → Bool
  | .createRepo .. => true
  | .deleteRepo _ => true
  | _ => false

/-- The remote state visible to the manager: the authenticated user and
the repository, star and commit data the remote would serve. -/
structure RemoteWorld where
  username : String
  repos : List Repo
  starred : List Repo
  commits : String → List CommitRecord

/-- Effect of one remote call on remote repository state: fetches
change nothing, `createRepo` adds a fresh record owned by the caller,
`deleteRepo` removes the records with the given name. -/
def apply_remote_op (w : RemoteWorld) : RemoteOp → RemoteWorld
  | .fetchRepos => w
  | .fetchStarred => w
  | .fetchCommits _ => w
  | .createRepo name _ priv _ _ _ =>
      { w with repos := w.repos ++ [⟨name, w.username, priv, false, false, 0, 0, "", 0, 0, true⟩] }
  | .deleteRepo name => { w with repos := w.repos.filter (fun r => !(r.name == name)) }

/-- Cumulative effect of a sequence of remote calls. -/
def apply_remote_ops (w : RemoteWorld) (ops : List RemoteOp) : RemoteWorld :=
  ops.foldl apply_remote_op w

/-- The observable behaviour of one manager operation: the remote calls
it performs and its result or propagated error. -/
structure OpTrace (α : Type) where
  calls : List RemoteOp
  result : Except ApiError α

/-- Modelled from the spec: `GithubRepoManager` is not among the source
files; the spec states every operation "performs a direct remote call
and raises a propagated API error on failure" with "no retry, batching,
or local caching logic".  `manager_call` issues the single call, shapes
a successful response, and propagates an error unchanged. -/
def manager_call (op : RemoteOp) (response : Except ApiError α)
    (shape : α → β) : OpTrace β :=
  { calls := [op]
    result := match response with
      | .error e => .error e
      | .ok a => .ok (shape a) }

/-- Modelled from the spec: `all_repos`, listing all accessible
repositories. -/
def all_repos_op (response : Except ApiError (List Repo)) : OpTrace (List Repo) :=
  manager_call .fetchRepos response id

/-- Modelled from the spec: `get_repo_stats`, one fetch of the record
set shaped into the six counts. -/
def get_repo_stats_op (username : String)
    (response : Except ApiError (List Repo)) : OpTrace RepoStats :=
  manager_call .fetchRepos response (get_repo_stats username)

/-- Modelled from the spec: `get_recent_repos`. -/
def get_recent_repos_op (n : Nat)
    (response : Except ApiError (List Repo)) : OpTrace (List Repo) :=
  manager_call .fetchRepos response (fun repos => get_recent_repos repos n)

/-- Modelled from the spec: `get_repo_commits`. -/
def get_repo_commits_op (repo : String)
    (response : Except ApiError (List CommitRecord)) : OpTrace (List CommitRecord) :=
  manager_call (.fetchCommits repo) response id

/-- Modelled from the spec: `get_starred_repos`. -/
def get_starred_repos_op (response : Except ApiError (List Repo)) : OpTrace (List Repo) :=
  manager_call .fetchStarred response id

/-- Modelled from the spec: `create_repo` (name, description,
visibility, init flag, optional template fields). -/
def create_repo_op (name : String) (description : Option String)
    (isPrivate auto_init : Bool) (gitignore_template license_template : Option String)
    (response : Except ApiError Repo) : OpTrace Repo :=
  manager_call
    (.createRepo name description isPrivate auto_init gitignore_template license_template)
    response id

/-- Modelled from the spec: `delete_repo`, deletion by name. -/
def delete_repo_op (name : String) (response : Except ApiError Unit) : OpTrace Unit :=
  manager_call (.deleteRepo name) response id

/-! ## Dashboard pages (`src/app.py`) -/

/-- A user-visible dashboard message (`st.header`, `st.warning`,
`st.write`, `st.success`, `st.error`, `st.info`). -/
inductive UiMsg where
  | header (s : String)
  | warning (s : String)
  | info (s : String)
  | writeMsg (s : String)
  | successMsg (s : String)
  | errorMsg (s : String)
deriving DecidableEq, Repr

/-- Result of rendering the dashboard delete page once: the names
offered in the dropdown, the remote calls made, and the messages
shown. -/
structure DeletePage where
  repo_names : List String
  calls : List RemoteOp
  messages : List UiMsg
deriving Repr

/-- The dashboard delete page, `delete_repository` in `src/app.py`
lines 50-75.  The dropdown offers the repositories carrying the
admin-permission flag; when the selection is truthy and the button is
pressed, `delete_repo` runs only when the typed confirmation equals the
selected name (a `GithubException` from it is shown with `st.error`),
and a non-matching confirmation aborts with an error message. -/
def delete_repository (repos : List Repo) (selected_repo : Option String)
    (confirmation : String) (button_clicked : Bool)
    (response : Except ApiError Unit) : DeletePage :=
  let repo_names := (repos.filter (fun r => r.permissions_admin)).map (fun r => r.name)
  let base : List UiMsg := [.header "Delete Repository"]
  match selected_repo with
  | none => ⟨repo_names, [], base⟩
  | some sel =>
    if sel == "" then ⟨repo_names, [], base⟩
    else
      let warned := base ++
        [.warning ("You are about to delete the repository: " ++ sel),
         .writeMsg "This action cannot be undone. Please type the repository name to confirm."]
      if button_clicked then
        if confirmation == sel then
          let tr := delete_repo_op sel response
          match tr.result with
          | .ok _ =>
              ⟨repo_names, tr.calls,
               warned ++ [.successMsg ("Repository " ++ sel ++ " has been deleted successfully.")]⟩
          | .error e =>
              ⟨repo_names, tr.calls,
               warned ++ [.errorMsg ("An error occurred while deleting the repository: " ++ apiErrorStr e)]⟩
        else
          ⟨repo_names, [],
           warned ++ [.errorMsg "Confirmation does not match the repository name. Deletion aborted."]⟩
      else ⟨repo_names, [], warned⟩

/-- Result of rendering the dashboard create page once. -/
structure CreatePage where
  calls : List RemoteOp
  messages : List UiMsg
deriving Repr

/-- The dashboard create page, `create_repository` in `src/app.py`
lines 102-137: on submit it calls `create_repo` with the form fields
(an empty template string becomes `None`, Python truthiness), reports
success, and shows a propagated `GithubException` with `st.error`. -/
def create_repository (repo_name description : String)
    (priv auto_init : Bool) (gitignore_template license_template : String)
    (submitted : Bool) (response : Except ApiError Repo) : CreatePage :=
  if submitted then
    let tr := create_repo_op repo_name (some description) priv auto_init
      (if gitignore_template == "" then none else some gitignore_template)
      (if license_template == "" then none else some license_template)
      response
    match tr.result with
    | .ok _ =>
        ⟨tr.calls, [.successMsg ("Repository " ++ repo_name ++ " created successfully!")]⟩
    | .error e =>
        ⟨tr.calls, [.errorMsg ("An error occurred while creating the repository: " ++ apiErrorStr e)]⟩
  else ⟨[], []⟩

/-! ## Token loading (`src/app.py` lines 21-26, `src/cli.py` lines 43-50) -/

/-- The environment-variable map (`os.getenv`). -/
def EnvMap : Type := String → Option String

/-- The filesystem as the token loaders see it: the contents of the
`token.env` file next to the source file, when that file exists, as
KEY=VALUE pairs. -/
structure TokenFs where
  token_env : Option (List (String × String))

/-- `load_dotenv` from python-dotenv with its default `override=False`:
variables from the file are added to the process environment, but a
variable that is already set keeps its value. -/
def load_dotenv (entries : List (String × String)) (env : EnvMap) : EnvMap :=
  fun k => match env k with
    | some v => some v
    | none => entries.lookup k

/-- `load_token_from_env` from `src/app.py` lines 21-26 and
`src/cli.py` lines 43-50 (identical behaviour): when `token.env` exists
next to the source file, load it and return `os.getenv("GITHUB_TOKEN")`;
otherwise return `None`. -/
def load_token_from_env (fs : TokenFs) (env : EnvMap) : Option String :=
  match fs.token_env with
  | some entries => load_dotenv entries env "GITHUB_TOKEN"
  | none => none

/-- `initialize_repo_manager` from `src/app.py` lines 139-147, with the
manager construction itself abstracted as succeeding: a falsy token
yields no manager and the token-setup error message. -/
def initialize_repo_manager (token : Option String) : Bool × Option String :=
  if py_truthy token then (true, none)
  else (false, some "GitHub token not found. Please set up your token.")

/-- What the dashboard entry point did before any page rendering. -/
structure AppGate where
  manager_constructed : Bool
  messages : List UiMsg
deriving Repr

/-- The dashboard entry gate, `main` in `src/app.py` lines 158-162: on
an initialization error, show it with `st.error` plus a help hint and
return before touching the manager or the remote API. -/
def app_main_gate (fs : TokenFs) (env : EnvMap) : AppGate :=
  let token := load_token_from_env fs env
  match initialize_repo_manager token with
  | (_, some err) =>
      ⟨false, [.errorMsg err,
               .info "See the help section above for instructions on how to create and set up your GitHub token."]⟩
  | (constructed, none) => ⟨constructed, []⟩

/-! ## Command-line tool (`src/cli.py`) -/

/-- The seven CLI actions (`src/cli.py` line 59); `list` and `export`
are rendered as `listRepos` and `exportRepos` because they collide with
Lean keywords or core names. -/
inductive CliAction where
  | stats
  | listRepos
  | create
  | delete
  | exportRepos
  | stars
  | visualize
deriving DecidableEq, Repr

/-- The `--format` choices (`src/cli.py` line 63). -/
inductive ExportFormat where
  | csv
  | xlsx
deriving DecidableEq, Repr

/-- The `--type` choices (`src/cli.py` line 65). -/
inductive VisType where
  | language_distribution
  | stars_vs_forks
  | creation_timeline
deriving DecidableEq, Repr

/-- The `action` positional argument choices (`src/cli.py` line 59). -/
def parse_action (s : String) : Option CliAction :=
  if s == "stats" then some .stats
  else if s == "list" then some .listRepos
  else if s == "create" then some .create
  else if s == "delete" then some .delete
  else if s == "export" then some .exportRepos
  else if s == "stars" then some .stars
  else if s == "visualize" then some .visualize
  else none

/-- The `--format` flag choices (`src/cli.py` line 63). -/
def parse_format (s : String) : Option ExportFormat :=
  if s == "csv" then some .csv
  else if s == "xlsx" then some .xlsx
  else none

/-- The `--type` flag choices (`src/cli.py` line 65). -/
def parse_vis_type (s : String) : Option VisType :=
  if s == "language_distribution" then some .language_distribution
  else if s == "stars_vs_forks" then some .stars_vs_forks
  else if s == "creation_timeline" then some .creation_timeline
  else none

/-- The raw command line as handed to `argparse`. -/
structure RawArgs where
  action : String
  name : Option String
  description : Option String
  isPrivate : Bool
  format : Option String
  output : Option String
  type : Option String
deriving DecidableEq, Repr

/-- The parsed command line (a successful `parser.parse_args`). -/
structure Args where
  action : CliAction
  name : Option String
  description : Option String
  isPrivate : Bool
  format : Option ExportFormat
  output : Option String
  type : Option VisType
deriving DecidableEq, Repr

/-- Parse an optional flag constrained by choices: an absent flag stays
absent, a present flag outside its choices is a usage error. -/
def parse_choice (p : String → Option α) : Option String → Option (Option α)
  | none => some none
  | some s => match p s with
    | some v => some (some v)
    | none => none

/-- `argparse` as configured at `src/cli.py` lines 58-67: the action
must be one of the seven choices and the constrained flags must lie
within their choices, otherwise `argparse` raises a usage error (exit
status 2). -/
def parse_args (raw : RawArgs) : Option Args :=
  match parse_action raw.action with
  | none => none
  | some act =>
    match parse_choice parse_format raw.format with
    | none => none
    | some fmt =>
      match parse_choice parse_vis_type raw.type with
      | none => none
      | some ty => some ⟨act, raw.name, raw.description, raw.isPrivate, fmt, raw.output, ty⟩

/-- The observable outcome of one CLI invocation: exit status, printed
lines, remote calls made, files written, and whether the manager was
constructed. -/
structure CliResult where
  exit_code : Nat
  printed : List String
  calls : List RemoteOp
  files_written : List String
  manager_constructed : Bool
deriving DecidableEq, Repr

/-- The `stats` action output (`src/cli.py` lines 71-74): one line per
stats key. -/
def render_stats (username : String) (s : RepoStats) : List String :=
  ["Total Repositories: " ++ toString s.total,
   "Owned by " ++ username ++ ": " ++ toString s.owned,
   "Public: " ++ toString s.publicCount,
   "Private: " ++ toString s.privateCount,
   "Forked: " ++ toString s.forked,
   "Archived: " ++ toString s.archivedCount]

/-- Effects of `export_data` (`src/cli.py` lines 11-17): one record-set
fetch, the output file written in the chosen format (both the csv and
the xlsx branch write exactly the output file), one confirmation
line. -/
def export_data_fx (_format : ExportFormat) (output : String) :
    List RemoteOp × List String × List String :=
  ([RemoteOp.fetchRepos], [output], ["Data exported to " ++ output])

/-- Effects of `export_stars` (`src/cli.py` lines 19-25). -/
def export_stars_fx (_format : ExportFormat) (output : String) :
    List RemoteOp × List String × List String :=
  ([RemoteOp.fetchStarred], [output], ["Starred repositories exported to " ++ output])

/-- Effects of `visualize` (`src/cli.py` lines 27-41); the
unknown-type branch is unreachable because `argparse` already
constrains `--type` to the three chart choices. -/
def visualize_fx (_chart : VisType) (output : String) :
    List RemoteOp × List String × List String :=
  ([RemoteOp.fetchRepos], [output], ["Visualization saved to " ++ output])

/-- The action dispatch of `main` (`src/cli.py` lines 71-105), after a
successful parse and manager construction.  Success output of the
`list` action is abstracted to the repository names; the missing-flag
error messages are verbatim. -/
def cli_dispatch (args : Args) (world : RemoteWorld) : CliResult :=
  match args.action with
  | .stats =>
      ⟨0, render_stats world.username (get_repo_stats world.username world.repos),
       [.fetchRepos], [], true⟩
  | .listRepos =>
      ⟨0, world.repos.map (fun r => r.name), [.fetchRepos], [], true⟩
  | .create =>
      if py_truthy args.name then
        let name := args.name.getD ""
        ⟨0, ["Repository created"],
         [.createRepo name args.description args.isPrivate false none none], [], true⟩
      else ⟨0, ["Repository name is required for create action"], [], [], true⟩
  | .delete =>
      if py_truthy args.name then
        let name := args.name.getD ""
        ⟨0, ["Repository " ++ name ++ " deleted"], [.deleteRepo name], [], true⟩
      else ⟨0, ["Repository name is required for delete action"], [], [], true⟩
  | .exportRepos =>
      match args.format with
      | some fmt =>
          if py_truthy args.output then
            let fx := export_data_fx fmt (args.output.getD "")
            ⟨0, fx.2.2, fx.1, fx.2.1, true⟩
          else ⟨0, ["Format and output file name are required for export action"], [], [], true⟩
      | none => ⟨0, ["Format and output file name are required for export action"], [], [], true⟩
  | .stars =>
      match args.format with
      | some fmt =>
          if py_truthy args.output then
            let fx := export_stars_fx fmt (args.output.getD "")
            ⟨0, fx.2.2, fx.1, fx.2.1, true⟩
          else ⟨0, ["Format and output file name are required for stars action"], [], [], true⟩
      | none => ⟨0, ["Format and output file name are required for stars action"], [], [], true⟩
  | .visualize =>
      match args.type with
      | some chart =>
          if py_truthy args.output then
            let fx := visualize_fx chart (args.output.getD "")
            ⟨0, fx.2.2, fx.1, fx.2.1, true⟩
          else ⟨0, ["Visualization type and output file name are required for visualize action"], [], [], true⟩
      | none => ⟨0, ["Visualization type and output file name are required for visualize action"], [], [], true⟩

/-- `main` from `src/cli.py` lines 52-105 with the token supplied: a
falsy token prints the setup message and returns before `argparse` runs
and before the manager is constructed; an argument outside the
`argparse` choices is a usage error (exit status 2, still before the
manager); otherwise the manager is constructed and the action
dispatched. -/
def cli_main_with_token (token : Option String) (raw : RawArgs)
    (world : RemoteWorld) : CliResult :=
  if py_truthy token then
    match parse_args raw with
    | none => ⟨2, [], [], [], false⟩
    | some args => cli_dispatch args world
  else ⟨0, ["GitHub token not found. Please set up your token in token.env file."], [], [], false⟩

/-- `main` from `src/cli.py`, end to end: the token is loaded from the
environment file first. -/
def cli_main (fs : TokenFs) (env : EnvMap) (raw : RawArgs)
    (world : RemoteWorld) : CliResult :=
  cli_main_with_token (load_token_from_env fs env) raw world

/-! ## CSV export (`src/cli.py` lines 11-17, `src/app.py` lines 77-86) -/

/-- One CSV cell, at the granularity pandas round-trips: a string, an
integer, or a boolean (pandas `to_csv` writes them and `read_csv`
restores the dtypes by inference). -/
inductive Cell where
  | str (s : String)
  | nat (n : Nat)
  | bool (b : Bool)
deriving DecidableEq, Repr

/-- The header row of the exported repository table, one column per
field of the spec's repository record. -/
def repoHeader : List Cell :=
  [.str "name", .str "owner", .str "private", .str "fork", .str "archived",
   .str "stars", .str "forks", .str "language", .str "created_at",
   .str "updated_at", .str "admin"]

/-- One data row of the exported repository table. -/
def repo_to_row (r : Repo) : List Cell :=
  [.str r.name, .str r.owner, .bool r.isPrivate, .bool r.fork, .bool r.archived,
   .nat r.stars, .nat r.forks, .str r.language, .nat r.created_at,
   .nat r.updated_at, .bool r.permissions_admin]

/-- Parse one data row back into a repository record. -/
def row_to_repo : List Cell → Option Repo
  | [.str name, .str owner, .bool p, .bool f, .bool a, .nat s, .nat fk,
     .str lang, .nat c, .nat u, .bool adm] =>
      some ⟨name, owner, p, f, a, s, fk, lang, c, u, adm⟩
  | _ => none

/-- Modelled from the spec (the dataframe builder
`get_repos_dataframe` is not among the source files): the CSV export of
a repository record set, as written by `export_data` in `src/cli.py`
lines 11-17 and `export_to_csv` in `src/app.py` lines 77-86
(`df.to_csv(index=False)`): a header row followed by one row per
record. -/
def export_data_csv (repos : List Repo) : List (List Cell) :=
  repoHeader :: repos.map repo_to_row

/-- Parse the data rows of a CSV table. -/
def parse_rows : List (List Cell) → Option (List Repo)
  | [] => some []
  | row :: rest =>
      match row_to_repo row, parse_rows rest with
      | some r, some rs => some (r :: rs)
      | _, _ => none

/-- Parse a whole exported CSV table: check the header, then parse each
data row. -/
def parse_csv (table : List (List Cell)) : Option (List Repo) :=
  match table with
  | [] => none
  | hdr :: rows => if hdr = repoHeader then parse_rows rows else none

/-! ## Concrete fixtures -/

/-- A small concrete fixture of repository records. -/
def demoRepos : List Repo :=
  [⟨"alpha", "kdmonroe", false, false, false, 3, 1, "Python", 10, 50, true⟩,
   ⟨"beta", "kdmonroe", true, true, false, 0, 0, "Lean", 20, 80, true⟩,
   ⟨"gamma", "other", false, false, true, 7, 2, "Python", 5, 30, false⟩]

/-- A small concrete fixture of commit records. -/
def demoCommits : List CommitRecord :=
  [⟨"alpha", "fix bug", 40, "kdmonroe", "u1"⟩,
   ⟨"alpha", "add docs", 45, "Keon Monroe", "u2"⟩,
   ⟨"gamma", "upstream patch", 28, "someone-else", "u3"⟩]

/-- A small concrete remote state. -/
def demoWorld : RemoteWorld :=
  ⟨"kdmonroe", demoRepos, demoRepos, fun _ => demoCommits⟩

end RepoAnalyzer

namespace RepoAnalyzer

/-! ## Theorems -/

theorem foldl_statsStep (username : String) (repos : List Repo) (s : RepoStats) :
    repos.foldl (statsStep username) s =
      { total := s.total + repos.length
        owned := s.owned + (repos.filter (fun r => r.owner == username)).length
        publicCount := s.publicCount + (repos.filter (fun r => !r.isPrivate)).length
        privateCount := s.privateCount + (repos.filter (fun r => r.isPrivate)).length
        forked := s.forked + (repos.filter (fun r => r.fork)).length
        archivedCount := s.archivedCount + (repos.filter (fun r => r.archived)).length } := by
  induction repos generalizing s with
  | nil => simp
  | cons r rest ih =>
    simp only [List.foldl_cons, ih, List.length_cons, List.filter_cons]
    cases ho : r.owner == username <;> cases hp : r.isPrivate <;>
      cases hf : r.fork <;> cases ha : r.archived <;>
        simp [statsStep, ho, hp, hf, ha] <;> omega

/-- Claim C1: for every fixed fixture of repository records,
`get_repo_stats` returns a summary whose six counts equal filtered
cardinalities of the record set: total equals the number of records,
owned equals the number owned by the authenticated user, public and
private equal the number with the respective visibility, forked equals
the number with the fork flag set, and archived equals the number with
the archived flag set. -/
theorem get_repo_stats_counts (username : String) (repos : List Repo) :
    (get_repo_stats username repos).total = repos.length ∧
    (get_repo_stats username repos).owned =
      (repos.filter (fun r => r.owner == username)).length ∧
    (get_repo_stats username repos).publicCount =
      (repos.filter (fun r => !r.isPrivate)).length ∧
    (get_repo_stats username repos).privateCount =
      (repos.filter (fun r => r.isPrivate)).length ∧
    (get_repo_stats username repos).forked =
      (repos.filter (fun r => r.fork)).length ∧
    (get_repo_stats username repos).archivedCount =
      (repos.filter (fun r => r.archived)).length := by
  simp [get_repo_stats, foldl_statsStep]

theorem get_recent_repos_sortedRel (repos : List Repo) (n : Nat) :
    (get_recent_repos repos n).Sorted updated_ge :=
  List.Pairwise.sublist (List.take_sublist n _)
    (List.sorted_insertionSort updated_ge repos)

/-- Claim C5: for every requested count `n`, `get_recent_repos n`
returns repositories ordered by update time, most recently updated
first: each repository's `updated_at` is greater than or equal to that
of every later element of the returned list. -/
theorem get_recent_repos_sorted (repos : List Repo) (n : Nat)
    (i j : Fin (get_recent_repos repos n).length) (hij : i < j) :
    ((get_recent_repos repos n).get j).updated_at ≤
      ((get_recent_repos repos n).get i).updated_at :=
  (get_recent_repos_sortedRel repos n).rel_get_of_lt hij

theorem get_recent_repos_sorted_witness :
    ((get_recent_repos demoRepos 2).get ⟨1, by decide⟩).updated_at ≤
      ((get_recent_repos demoRepos 2).get ⟨0, by decide⟩).updated_at :=
  get_recent_repos_sorted demoRepos 2 ⟨0, by decide⟩ ⟨1, by decide⟩ (by decide)

/-- Claim C9: in the Activity view, the commits attributed to the
authenticated user (author name equal to the user's login or full name)
and the commits attributed to other authors partition the fetched
commit set: the two subsets are disjoint, and the count of user commits
plus the count of other-author commits equals the total number of
commits fetched. -/
theorem commits_partition (user_login user_name : String)
    (df : List CommitRecord) :
    List.Disjoint (owned_commits user_login user_name df)
        (other_commits user_login user_name df) ∧
      (owned_commits user_login user_name df).length +
          (other_commits user_login user_name df).length = df.length := by
  constructor
  · intro c hc hc'
    rw [owned_commits, List.mem_filter] at hc
    rw [other_commits, List.mem_filter] at hc'
    rw [hc.2] at hc'
    exact absurd hc'.2 (by simp)
  · exact (List.length_eq_length_filter_add (is_user_author user_login user_name)).symm

theorem commits_partition_witness :
    List.Disjoint (owned_commits "kdmonroe" "Keon Monroe" demoCommits)
        (other_commits "kdmonroe" "Keon Monroe" demoCommits) ∧
      (owned_commits "kdmonroe" "Keon Monroe" demoCommits).length +
          (other_commits "kdmonroe" "Keon Monroe" demoCommits).length =
        demoCommits.length :=
  commits_partition "kdmonroe" "Keon Monroe" demoCommits

end RepoAnalyzer

namespace RepoAnalyzer

theorem row_to_repo_repo_to_row (r : Repo) :
    row_to_repo (repo_to_row r) = some r := rfl

theorem parse_rows_map (repos : List Repo) :
    parse_rows (repos.map repo_to_row) = some repos := by
  induction repos with
  | nil => rfl
  | cons r rest ih => simp [parse_rows, row_to_repo_repo_to_row, ih]

/-- Claim C2: for every repository record set, exporting it to CSV
(`export_data` with format csv, or the dashboard's `export_to_csv`) and
parsing that CSV back yields the same record set: the CSV export
round-trips. -/
theorem csv_round_trip (repos : List Repo) :
    parse_csv (export_data_csv repos) = some repos := by
  simp [parse_csv, export_data_csv, parse_rows_map]

end RepoAnalyzer

namespace RepoAnalyzer

/-- Claim C3: for every CLI invocation whose action is missing a
required flag (create or delete without a truthy name; export or stars
without format or a truthy output; visualize without type or a truthy
output), the CLI prints the corresponding error message and performs no
remote call; an action or flag outside the argparse choices produces a
usage error (exit status 2). -/
theorem cli_missing_required_flags (token : Option String) (raw : RawArgs)
    (world : RemoteWorld) (htok : py_truthy token = true) :
    (parse_args raw = none →
        cli_main_with_token token raw world = ⟨2, [], [], [], false⟩) ∧
    (∀ args, parse_args raw = some args →
        cli_main_with_token token raw world = cli_dispatch args world) ∧
    (∀ args : Args, args.action = CliAction.create → py_truthy args.name = false →
        cli_dispatch args world =
          ⟨0, ["Repository name is required for create action"], [], [], true⟩) ∧
    (∀ args : Args, args.action = CliAction.delete → py_truthy args.name = false →
        cli_dispatch args world =
          ⟨0, ["Repository name is required for delete action"], [], [], true⟩) ∧
    (∀ args : Args, args.action = CliAction.exportRepos →
        (args.format = none ∨ py_truthy args.output = false) →
        cli_dispatch args world =
          ⟨0, ["Format and output file name are required for export action"], [], [], true⟩) ∧
    (∀ args : Args, args.action = CliAction.stars →
        (args.format = none ∨ py_truthy args.output = false) →
        cli_dispatch args world =
          ⟨0, ["Format and output file name are required for stars action"], [], [], true⟩) ∧
    (∀ args : Args, args.action = CliAction.visualize →
        (args.type = none ∨ py_truthy args.output = false) →
        cli_dispatch args world =
          ⟨0, ["Visualization type and output file name are required for visualize action"], [], [], true⟩) := by
  refine ⟨fun h => ?_, fun args h => ?_, fun args ha hn => ?_, fun args ha hn => ?_,
    fun args ha hfo => ?_, fun args ha hfo => ?_, fun args ha hfo => ?_⟩
  · simp [cli_main_with_token, htok, h]
  · simp [cli_main_with_token, htok, h]
  · simp [cli_dispatch, ha, hn]
  · simp [cli_dispatch, ha, hn]
  · rcases hfo with hf | ho
    · simp [cli_dispatch, ha, hf]
    · cases hfmt : args.format <;> simp [cli_dispatch, ha, hfmt, ho]
  · rcases hfo with hf | ho
    · simp [cli_dispatch, ha, hf]
    · cases hfmt : args.format <;> simp [cli_dispatch, ha, hfmt, ho]
  · rcases hfo with hf | ho
    · simp [cli_dispatch, ha, hf]
    · cases hty : args.type <;> simp [cli_dispatch, ha, hty, ho]

theorem cli_missing_required_flags_witness :
    cli_main_with_token (some "tok")
        ⟨"create", none, none, false, none, none, none⟩ demoWorld =
      ⟨0, ["Repository name is required for create action"], [], [], true⟩ := by
  have h := cli_missing_required_flags (some "tok")
    ⟨"create", none, none, false, none, none, none⟩ demoWorld (by decide)
  rw [h.2.1 ⟨CliAction.create, none, none, false, none, none, none⟩ (by decide)]
  exact h.2.2.1 ⟨CliAction.create, none, none, false, none, none, none⟩ rfl rfl

end RepoAnalyzer

namespace RepoAnalyzer

/-- Claim C4: every manager operation (list, stats, recent, commits,
create, delete, stars) performs exactly one direct remote call and, on
remote failure, returns the propagated API error unchanged; and in the
dashboard a propagated error from create or delete surfaces as a
user-visible error message. -/
theorem manager_ops_single_direct_call :
    (∀ resp, (all_repos_op resp).calls = [RemoteOp.fetchRepos] ∧
      ∀ e, resp = Except.error e → (all_repos_op resp).result = Except.error e) ∧
    (∀ username resp, (get_repo_stats_op username resp).calls = [RemoteOp.fetchRepos] ∧
      ∀ e, resp = Except.error e →
        (get_repo_stats_op username resp).result = Except.error e) ∧
    (∀ n resp, (get_recent_repos_op n resp).calls = [RemoteOp.fetchRepos] ∧
      ∀ e, resp = Except.error e →
        (get_recent_repos_op n resp).result = Except.error e) ∧
    (∀ repo resp, (get_repo_commits_op repo resp).calls = [RemoteOp.fetchCommits repo] ∧
      ∀ e, resp = Except.error e →
        (get_repo_commits_op repo resp).result = Except.error e) ∧
    (∀ name d p i g l resp,
      (create_repo_op name d p i g l resp).calls = [RemoteOp.createRepo name d p i g l] ∧
      ∀ e, resp = Except.error e →
        (create_repo_op name d p i g l resp).result = Except.error e) ∧
    (∀ name resp, (delete_repo_op name resp).calls = [RemoteOp.deleteRepo name] ∧
      ∀ e, resp = Except.error e → (delete_repo_op name resp).result = Except.error e) ∧
    (∀ resp, (get_starred_repos_op resp).calls = [RemoteOp.fetchStarred] ∧
      ∀ e, resp = Except.error e → (get_starred_repos_op resp).result = Except.error e) ∧
    (∀ rn d p i g l e,
      (create_repository rn d p i g l true (Except.error e)).messages =
        [UiMsg.errorMsg ("An error occurred while creating the repository: " ++ apiErrorStr e)]) ∧
    (∀ repos sel e, sel ≠ "" →
      UiMsg.errorMsg ("An error occurred while deleting the repository: " ++ apiErrorStr e)
        ∈ (delete_repository repos (some sel) sel true (Except.error e)).messages) := by
  refine ⟨fun resp => ⟨rfl, fun e he => by simp [all_repos_op, manager_call, he]⟩,
    fun username resp => ⟨rfl, fun e he => by simp [get_repo_stats_op, manager_call, he]⟩,
    fun n resp => ⟨rfl, fun e he => by simp [get_recent_repos_op, manager_call, he]⟩,
    fun repo resp => ⟨rfl, fun e he => by simp [get_repo_commits_op, manager_call, he]⟩,
    fun name d p i g l resp =>
      ⟨rfl, fun e he => by simp [create_repo_op, manager_call, he]⟩,
    fun name resp => ⟨rfl, fun e he => by simp [delete_repo_op, manager_call, he]⟩,
    fun resp => ⟨rfl, fun e he => by simp [get_starred_repos_op, manager_call, he]⟩,
    fun rn d p i g l e => ?_, fun repos sel e hsel => ?_⟩
  · cases hg : g == "" <;> cases hl : l == "" <;>
      simp [create_repository, create_repo_op, manager_call, hg, hl]
  · have hsel' : (sel == "") = false := by
      cases h : sel == "" with
      | true => exact absurd (by simpa using h) hsel
      | false => rfl
    simp [delete_repository, delete_repo_op, manager_call, hsel']

theorem manager_ops_single_direct_call_witness :
    (delete_repo_op "alpha" (Except.error ApiError.notFound)).calls =
        [RemoteOp.deleteRepo "alpha"] ∧
      (delete_repo_op "alpha" (Except.error ApiError.notFound)).result =
        Except.error ApiError.notFound ∧
      UiMsg.errorMsg ("An error occurred while deleting the repository: " ++
          apiErrorStr ApiError.notFound)
        ∈ (delete_repository demoRepos (some "alpha") "alpha" true
            (Except.error ApiError.notFound)).messages :=
  ⟨(manager_ops_single_direct_call.2.2.2.2.2.1 "alpha" (Except.error ApiError.notFound)).1,
   (manager_ops_single_direct_call.2.2.2.2.2.1 "alpha"
      (Except.error ApiError.notFound)).2 ApiError.notFound rfl,
   manager_ops_single_direct_call.2.2.2.2.2.2.2.2 demoRepos "alpha" ApiError.notFound
     (by decide)⟩

end RepoAnalyzer

namespace RepoAnalyzer

/-- Claim C6: `load_token_from_env` returns the GITHUB_TOKEN value
loaded from the `token.env` file next to the source file when that file
exists (python-dotenv does not override a variable already set in the
process environment, so the ambient variable is assumed unset), and
returns `None` when the file does not exist; when the loaded token is
falsy, both the dashboard and the CLI report a token-setup error and
return without constructing the manager or contacting the remote
API. -/
theorem load_token_behavior (fs : TokenFs) (env : EnvMap) :
    (fs.token_env = none → load_token_from_env fs env = none) ∧
    (∀ entries, fs.token_env = some entries → env "GITHUB_TOKEN" = none →
      load_token_from_env fs env = entries.lookup "GITHUB_TOKEN") ∧
    (py_truthy (load_token_from_env fs env) = false →
      (app_main_gate fs env).manager_constructed = false ∧
      UiMsg.errorMsg "GitHub token not found. Please set up your token."
          ∈ (app_main_gate fs env).messages ∧
      ∀ raw world, cli_main fs env raw world =
        ⟨0, ["GitHub token not found. Please set up your token in token.env file."],
         [], [], false⟩) := by
  refine ⟨fun h => by simp [load_token_from_env, h], fun entries h henv => ?_, fun hf => ?_⟩
  · simp [load_token_from_env, h, load_dotenv, henv]
  · refine ⟨?_, ?_, fun raw world => ?_⟩
    · simp [app_main_gate, initialize_repo_manager, hf]
    · simp [app_main_gate, initialize_repo_manager, hf]
    · simp [cli_main, cli_main_with_token, hf]

theorem load_token_behavior_witness :
    load_token_from_env ⟨none⟩ (fun _ => none) = none ∧
      (app_main_gate ⟨none⟩ (fun _ => none)).manager_constructed = false ∧
      load_token_from_env ⟨some [("GITHUB_TOKEN", "tok")]⟩ (fun _ => none) =
        some "tok" :=
  ⟨(load_token_behavior ⟨none⟩ (fun _ => none)).1 rfl,
   ((load_token_behavior ⟨none⟩ (fun _ => none)).2.2 rfl).1,
   (load_token_behavior ⟨some [("GITHUB_TOKEN", "tok")]⟩ (fun _ => none)).2.1
     [("GITHUB_TOKEN", "tok")] rfl rfl⟩

end RepoAnalyzer

namespace RepoAnalyzer

/-- Claim C7: the read-style operations leave remote repository state
unchanged and write no local file beyond the explicitly requested
output: for the CLI actions stats, list, export, stars and visualize,
every remote call made is a non-mutating fetch, replaying the calls
against the remote state returns it unchanged, and every file written
is exactly the requested output file; commit fetching is likewise a
single non-mutating call that leaves remote state unchanged. -/
theorem read_actions_frame (args : Args) (world : RemoteWorld)
    (h : args.action = CliAction.stats ∨ args.action = CliAction.listRepos ∨
         args.action = CliAction.exportRepos ∨ args.action = CliAction.stars ∨
         args.action = CliAction.visualize) :
    (cli_dispatch args world).calls.all (fun op => !op.isMutation) = true ∧
    apply_remote_ops world (cli_dispatch args world).calls = world ∧
    (∀ f, f ∈ (cli_dispatch args world).files_written → args.output = some f) ∧
    (∀ repo resp,
      ((get_repo_commits_op repo resp).calls.all (fun op => !op.isMutation)) = true ∧
      apply_remote_ops world (get_repo_commits_op repo resp).calls = world) := by
  have hout : py_truthy args.output = true →
      args.output = some (args.output.getD "") := by
    intro ht
    cases ho : args.output with
    | none => rw [ho] at ht; simp [py_truthy] at ht
    | some s => simp [ho]
  have hcommits : ∀ repo resp,
      ((get_repo_commits_op repo resp).calls.all (fun op => !op.isMutation)) = true ∧
      apply_remote_ops world (get_repo_commits_op repo resp).calls = world := by
    intro repo resp
    exact ⟨rfl, rfl⟩
  rcases h with ha | ha | ha | ha | ha
  · exact ⟨by simp [cli_dispatch, ha, RemoteOp.isMutation],
      by simp [cli_dispatch, ha, apply_remote_ops, apply_remote_op],
      by simp [cli_dispatch, ha], hcommits⟩
  · exact ⟨by simp [cli_dispatch, ha, RemoteOp.isMutation],
      by simp [cli_dispatch, ha, apply_remote_ops, apply_remote_op],
      by simp [cli_dispatch, ha], hcommits⟩
  · refine ⟨?_, ?_, ?_, hcommits⟩ <;>
      cases hfmt : args.format <;>
        cases ht : py_truthy args.output <;>
          simp [cli_dispatch, ha, hfmt, ht, export_data_fx, apply_remote_ops,
            apply_remote_op, RemoteOp.isMutation]
    · exact hout ht
  · refine ⟨?_, ?_, ?_, hcommits⟩ <;>
      cases hfmt : args.format <;>
        cases ht : py_truthy args.output <;>
          simp [cli_dispatch, ha, hfmt, ht, export_stars_fx, apply_remote_ops,
            apply_remote_op, RemoteOp.isMutation]
    · exact hout ht
  · refine ⟨?_, ?_, ?_, hcommits⟩ <;>
      cases hty : args.type <;>
        cases ht : py_truthy args.output <;>
          simp [cli_dispatch, ha, hty, ht, visualize_fx, apply_remote_ops,
            apply_remote_op, RemoteOp.isMutation]
    · exact hout ht

theorem read_actions_frame_witness :
    (cli_dispatch ⟨CliAction.stats, none, none, false, none, none, none⟩
        demoWorld).calls.all (fun op => !op.isMutation) = true ∧
      apply_remote_ops demoWorld
          (cli_dispatch ⟨CliAction.stats, none, none, false, none, none, none⟩
            demoWorld).calls =
        demoWorld :=
  ⟨(read_actions_frame ⟨CliAction.stats, none, none, false, none, none, none⟩
      demoWorld (Or.inl rfl)).1,
   (read_actions_frame ⟨CliAction.stats, none, none, false, none, none, none⟩
      demoWorld (Or.inl rfl)).2.1⟩

end RepoAnalyzer

namespace RepoAnalyzer

/-- Claim C8: in the dashboard delete page the repositories offered for
deletion are exactly those carrying the admin-permission flag;
`delete_repo` is invoked only when the typed confirmation equals the
selected repository name; and for every non-matching confirmation no
delete call is made and, once the button is pressed, an abort error is
shown. -/
theorem delete_page_guard (repos : List Repo) (selected_repo : Option String)
    (confirmation : String) (button : Bool) (resp : Except ApiError Unit) :
    (delete_repository repos selected_repo confirmation button resp).repo_names =
      (repos.filter (fun r => r.permissions_admin)).map (fun r => r.name) ∧
    (∀ op, op ∈ (delete_repository repos selected_repo confirmation button resp).calls →
      ∃ sel, selected_repo = some sel ∧ confirmation = sel ∧
        op = RemoteOp.deleteRepo sel) ∧
    (∀ sel, selected_repo = some sel → confirmation ≠ sel →
      (delete_repository repos selected_repo confirmation button resp).calls = [] ∧
      (button = true → sel ≠ "" →
        UiMsg.errorMsg "Confirmation does not match the repository name. Deletion aborted."
          ∈ (delete_repository repos selected_repo confirmation button resp).messages)) := by
  refine ⟨?_, ?_, ?_⟩
  · cases selected_repo with
    | none => rfl
    | some sel =>
      cases hsel : sel == "" with
      | true => simp [delete_repository, hsel]
      | false =>
        cases button with
        | false => simp [delete_repository, hsel]
        | true =>
          cases hc : confirmation == sel with
          | false => simp [delete_repository, hsel, hc]
          | true => cases resp <;> simp [delete_repository, hsel, hc, delete_repo_op, manager_call]
  · intro op hop
    cases selected_repo with
    | none => simp [delete_repository] at hop
    | some sel =>
      refine ⟨sel, rfl, ?_⟩
      cases hsel : sel == "" with
      | true => simp [delete_repository, hsel] at hop
      | false =>
        cases button with
        | false => simp [delete_repository, hsel] at hop
        | true =>
          cases hc : confirmation == sel with
          | false => simp [delete_repository, hsel, hc] at hop
          | true =>
            have hceq : confirmation = sel := by simpa using hc
            cases resp <;>
              simp [delete_repository, hsel, hc, delete_repo_op, manager_call] at hop <;>
                exact ⟨hceq, hop⟩
  · intro sel hs hne
    subst hs
    have hc : (confirmation == sel) = false := by
      cases h : confirmation == sel with
      | true => exact absurd (by simpa using h) hne
      | false => rfl
    constructor
    · cases hsel : sel == "" with
      | true => simp [delete_repository, hsel]
      | false => cases button <;> simp [delete_repository, hsel, hc]
    · intro hb hsel'
      have hsel : (sel == "") = false := by
        cases h : sel == "" with
        | true => exact absurd (by simpa using h) hsel'
        | false => rfl
      subst hb
      simp [delete_repository, hsel, hc]

theorem delete_page_guard_witness :
    (delete_repository demoRepos (some "alpha") "wrong" true
        (Except.ok ())).repo_names =
      ((demoRepos.filter (fun r => r.permissions_admin)).map (fun r => r.name)) ∧
      (delete_repository demoRepos (some "alpha") "wrong" true
          (Except.ok ())).calls = [] ∧
      UiMsg.errorMsg "Confirmation does not match the repository name. Deletion aborted."
        ∈ (delete_repository demoRepos (some "alpha") "wrong" true
            (Except.ok ())).messages :=
  ⟨(delete_page_guard demoRepos (some "alpha") "wrong" true (Except.ok ())).1,
   ((delete_page_guard demoRepos (some "alpha") "wrong" true (Except.ok ())).2.2
      "alpha" rfl (by decide)).1,
   ((delete_page_guard demoRepos (some "alpha") "wrong" true (Except.ok ())).2.2
      "alpha" rfl (by decide)).2 rfl (by decide)⟩

end RepoAnalyzer
